import Mathlib

/-!
# Verification of the camera-acquisition core of robo-med-pilot-droid

This file embeds, in Lean, the camera-acquisition and fallback logic of the
repository (`src/utils/cameraUtils.ts`, `src/components/CameraFeed.tsx`,
`src/hooks/use-camera.tsx` and the camera-detection utility modules) and
proves or refutes the specification's claims about it.

JavaScript strings are modeled as Lean `String`s; where the source uses
`String.prototype.split('/')` / `Array.prototype.join('/')` we model the
exact JavaScript behaviour on the underlying character list.
-/

namespace RoboMed

/-! ## URL normalizer (`src/utils/cameraUtils.ts`) -/

/-- JavaScript `s.split('/')` on a character list: splits at every `'/'`,
keeping empty components (so `"a//b" ↦ ["a", "", "b"]` and `"" ↦ [""]`). -/
def splitSlash : List Char → List (List Char)
  | [] => [[]]
  | c :: cs =>
    if c = '/' then [] :: splitSlash cs
    else
      match splitSlash cs with
      | [] => [[c]]
      | h :: t => (c :: h) :: t

/-- JavaScript `parts.join('/')` on character lists. -/
def joinSlash : List (List Char) → List Char
  | [] => []
  | [x] => x
  | x :: xs => x ++ '/' :: joinSlash xs

/-- `formatCameraUrl` from `src/utils/cameraUtils.ts` (lines 53-64), on the
character list underlying the input string:
empty input maps to empty; input without an `http://`/`https://` scheme gets
`http://` prepended and is returned as-is; otherwise the URL is cut down to
its first three `'/'`-separated components (`url.split('/').slice(0, 3).join('/')`). -/
def formatCameraUrlL (url : List Char) : List Char :=
  if url = [] then []
  else if !("http://".toList.isPrefixOf url) && !("https://".toList.isPrefixOf url) then
    "http://".toList ++ url
  else
    joinSlash ((splitSlash url).take 3)

/-- `formatCameraUrl` as a `String → String` function. -/
def formatCameraUrl (url : String) : String :=
  String.mk (formatCameraUrlL url.toList)

/-- `splitSlash` never returns the empty list of components. -/
theorem splitSlash_ne_nil (l : List Char) : splitSlash l ≠ [] := by
  induction l with
  | nil => simp [splitSlash]
  | cons c cs ih =>
    simp only [splitSlash]
    split
    · simp
    · cases h : splitSlash cs with
      | nil => simp
      | cons h t => simp

/-- No component produced by `splitSlash` contains a `'/'`. -/
theorem splitSlash_no_slash (l : List Char) :
    ∀ comp ∈ splitSlash l, '/' ∉ comp := by
  induction l with
  | nil => intro comp hc; simp [splitSlash] at hc; simp [hc]
  | cons c cs ih =>
    intro comp hc
    simp only [splitSlash] at hc
    split at hc
    · rcases List.mem_cons.mp hc with h | h
      · simp [h]
      · exact ih comp h
    · rename_i hslash
      cases hsp : splitSlash cs with
      | nil => exact absurd hsp (splitSlash_ne_nil cs)
      | cons h t =>
        rw [hsp] at hc
        rcases List.mem_cons.mp hc with h' | h'
        · subst h'
          intro hmem
          rcases List.mem_cons.mp hmem with h'' | h''
          · exact hslash h''.symm
          · exact ih h (by simp [hsp]) h''
        · exact ih comp (by simp [hsp, h'])

/-- A slash-free character list is returned whole by `splitSlash`. -/
theorem splitSlash_of_no_slash (l : List Char) (h : '/' ∉ l) :
    splitSlash l = [l] := by
  induction l with
  | nil => simp [splitSlash]
  | cons c cs ih =>
    simp only [splitSlash]
    rw [if_neg (by intro hc; exact h (by simp [hc]))]
    rw [ih (by intro hc; exact h (by simp [hc]))]

/-- Splitting a string that starts with `"http://"` yields `"http:"`, an
empty component, and then the components of the remainder. -/
theorem splitSlash_http (rest : List Char) :
    splitSlash ("http://".toList ++ rest) =
      "http:".toList :: [] :: splitSlash rest := by
  cases hsp : splitSlash rest with
  | nil => exact absurd hsp (splitSlash_ne_nil rest)
  | cons h t => simp [show "http://".toList = ['h','t','t','p',':','/','/'] from rfl,
      splitSlash, hsp]

/-- Splitting a string that starts with `"https://"` yields `"https:"`, an
empty component, and then the components of the remainder. -/
theorem splitSlash_https (rest : List Char) :
    splitSlash ("https://".toList ++ rest) =
      "https:".toList :: [] :: splitSlash rest := by
  cases hsp : splitSlash rest with
  | nil => exact absurd hsp (splitSlash_ne_nil rest)
  | cons h t => simp [show "https://".toList = ['h','t','t','p','s',':','/','/'] from rfl,
      splitSlash, hsp]

/-- On an input starting with `"http://"`, `formatCameraUrl` keeps only the
scheme and the first slash-free component of the remainder. -/
theorem formatCameraUrlL_http (rest : List Char) :
    formatCameraUrlL ("http://".toList ++ rest) =
      "http://".toList ++ (splitSlash rest).headD [] := by
  have hpre : "http://".toList.isPrefixOf ("http://".toList ++ rest) = true := by
    rw [List.isPrefixOf_iff_prefix]; exact List.prefix_append _ _
  cases hsp : splitSlash rest with
  | nil => exact absurd hsp (splitSlash_ne_nil rest)
  | cons r0 rs =>
    simp only [formatCameraUrlL, hpre]
    rw [if_neg (by simp), if_neg (by simp)]
    rw [splitSlash_http, hsp]
    cases rs <;> simp [joinSlash]

/-- On an input starting with `"https://"`, `formatCameraUrl` keeps only the
scheme and the first slash-free component of the remainder. -/
theorem formatCameraUrlL_https (rest : List Char) :
    formatCameraUrlL ("https://".toList ++ rest) =
      "https://".toList ++ (splitSlash rest).headD [] := by
  have hpre : "https://".toList.isPrefixOf ("https://".toList ++ rest) = true := by
    rw [List.isPrefixOf_iff_prefix]; exact List.prefix_append _ _
  cases hsp : splitSlash rest with
  | nil => exact absurd hsp (splitSlash_ne_nil rest)
  | cons r0 rs =>
    simp only [formatCameraUrlL, hpre]
    rw [if_neg (by simp), if_neg (by simp [hpre])]
    rw [splitSlash_https, hsp]
    cases rs <;> simp [joinSlash]

/-- `formatCameraUrl` is idempotent on inputs that already carry an
`http://` or `https://` scheme. -/
theorem formatCameraUrlL_idem_schemed (url : List Char)
    (h : "http://".toList.isPrefixOf url = true ∨
         "https://".toList.isPrefixOf url = true) :
    formatCameraUrlL (formatCameraUrlL url) = formatCameraUrlL url := by
  rcases h with h | h
  · rw [List.isPrefixOf_iff_prefix] at h
    obtain ⟨rest, hrest⟩ := h
    subst hrest
    rw [formatCameraUrlL_http]
    have hhead : '/' ∉ (splitSlash rest).headD [] := by
      cases hsp : splitSlash rest with
      | nil => exact absurd hsp (splitSlash_ne_nil rest)
      | cons r0 rs =>
        simpa using splitSlash_no_slash rest r0 (by simp [hsp])
    rw [formatCameraUrlL_http, splitSlash_of_no_slash _ hhead]
    simp
  · rw [List.isPrefixOf_iff_prefix] at h
    obtain ⟨rest, hrest⟩ := h
    subst hrest
    rw [formatCameraUrlL_https]
    have hhead : '/' ∉ (splitSlash rest).headD [] := by
      cases hsp : splitSlash rest with
      | nil => exact absurd hsp (splitSlash_ne_nil rest)
      | cons r0 rs =>
        simpa using splitSlash_no_slash rest r0 (by simp [hsp])
    rw [formatCameraUrlL_https, splitSlash_of_no_slash _ hhead]
    simp

/-- A nonempty input without a scheme only gets `http://` prepended: no path
stripping happens in that branch. -/
theorem formatCameraUrlL_schemeless (url : List Char) (hne : url ≠ [])
    (h1 : "http://".toList.isPrefixOf url = false)
    (h2 : "https://".toList.isPrefixOf url = false) :
    formatCameraUrlL url = "http://".toList ++ url := by
  simp only [formatCameraUrlL, if_neg hne, h1, h2]
  rw [if_pos (by simp [h1, h2])]

/-- Claim C4, counterexample: contrary to the claim, the URL normalizer does
not strip the path from the scheme-less input `"192.168.1.50:8080/video"`;
the result is not `"http://192.168.1.50:8080"`. -/
theorem claim4_counterexample :
    formatCameraUrl "192.168.1.50:8080/video" ≠ "http://192.168.1.50:8080" := by
  decide

/-- Claim C4, amended: on `"192.168.1.50:8080/video"` the normalizer prepends
`http://` and keeps the path, returning `"http://192.168.1.50:8080/video"`;
path stripping happens only for inputs already carrying a scheme, as the
second conjunct shows on the already-schemed variant of the same input. -/
theorem claim4_amended_theorem :
    formatCameraUrl "192.168.1.50:8080/video" = "http://192.168.1.50:8080/video" ∧
    formatCameraUrl "http://192.168.1.50:8080/video" = "http://192.168.1.50:8080" := by
  constructor <;> decide

/-- Claim C5, counterexample: the normalizer is not idempotent on every
input; on the scheme-less input `"192.168.1.50:8080/video"` a second
application strips the path that the first application kept. -/
theorem claim5_counterexample :
    formatCameraUrl (formatCameraUrl "192.168.1.50:8080/video") ≠
      formatCameraUrl "192.168.1.50:8080/video" := by
  decide

/-- Claim C5, amended: every nonempty input without an `http(s)://` scheme
gets `http://` prepended (the empty string maps to itself, not to
`"http://"`), and the normalizer is idempotent on inputs that already carry
a scheme; full idempotence fails (see the counterexample). -/
theorem claim5_amended_theorem :
    (∀ url : List Char, url ≠ [] →
      "http://".toList.isPrefixOf url = false →
      "https://".toList.isPrefixOf url = false →
      formatCameraUrlL url = "http://".toList ++ url) ∧
    (∀ url : List Char,
      ("http://".toList.isPrefixOf url = true ∨
       "https://".toList.isPrefixOf url = true) →
      formatCameraUrlL (formatCameraUrlL url) = formatCameraUrlL url) := by
  exact ⟨formatCameraUrlL_schemeless, formatCameraUrlL_idem_schemed⟩

/-- Claim C5 amended, witness: the two parts of the amended claim evaluated
at the concrete inputs `"camhost:81"` and `"http://camhost:81/video/x"`. -/
theorem claim5_amended_witness :
    formatCameraUrlL "camhost:81".toList = "http://camhost:81".toList ∧
    formatCameraUrlL (formatCameraUrlL "http://camhost:81/video/x".toList) =
      formatCameraUrlL "http://camhost:81/video/x".toList :=
  ⟨by rw [claim5_amended_theorem.1 "camhost:81".toList (by decide) (by decide) (by decide)]
      decide,
   claim5_amended_theorem.2 "http://camhost:81/video/x".toList (Or.inl (by decide))⟩

/-! ## Remote-feed fallback ladder (`src/components/CameraFeed.tsx`)

The `CameraFeed` component's state is embedded as a record; each React
event handler becomes a state transformer (a `setX(v)` call is modeled as
an immediate update of field `x`), and the `useEffect` hooked on
`usingDeviceCamera` (lines 65-77) is folded into the transitions that
change that flag. -/

/-- The transport modes of the fallback ladder (`type VideoMode`). -/
inductive VideoMode where
  | direct
  | mjpeg
  | img
  | webcam
deriving DecidableEq, Repr

/-- The per-mode retry counters (`retryAttempts : Record<VideoMode, number>`). -/
structure RetryAttempts where
  direct : Nat
  mjpeg : Nat
  img : Nat
  webcam : Nat
deriving DecidableEq, Repr

/-- `retryAttempts[mode]`. -/
def RetryAttempts.get (r : RetryAttempts) : VideoMode → Nat
  | .direct => r.direct
  | .mjpeg => r.mjpeg
  | .img => r.img
  | .webcam => r.webcam

/-- `{...prev, [mode]: prev[mode] + 1}` (used by `switchToNextMode`). -/
def RetryAttempts.bump (r : RetryAttempts) : VideoMode → RetryAttempts
  | .direct => { r with direct := r.direct + 1 }
  | .mjpeg => { r with mjpeg := r.mjpeg + 1 }
  | .img => { r with img := r.img + 1 }
  | .webcam => { r with webcam := r.webcam + 1 }

/-- `{...prev, [mode]: 0}` (used by the mode-cycle button). -/
def RetryAttempts.clear (r : RetryAttempts) : VideoMode → RetryAttempts
  | .direct => { r with direct := 0 }
  | .mjpeg => { r with mjpeg := 0 }
  | .img => { r with img := 0 }
  | .webcam => { r with webcam := 0 }

/-- All four counters at zero (initial value and every reset site). -/
def RetryAttempts.zero : RetryAttempts := ⟨0, 0, 0, 0⟩

/-- A `CameraError` value (`{type, message}`). -/
structure CameraError where
  type : String
  message : String
deriving DecidableEq, Repr

/-- The `CameraFeed` component state relevant to the fallback ladder. -/
structure FeedState where
  loading : Bool
  error : Option CameraError
  useCorsBypass : Bool
  videoMode : VideoMode
  retryAttempts : RetryAttempts
  usingDeviceCamera : Bool
deriving DecidableEq, Repr

/-- `maxRetries = 3` (CameraFeed.tsx line 57). -/
def maxRetries : Nat := 3

/-- The `modes` array cycle in `switchToNextMode`:
`modes[(modes.indexOf(videoMode) + 1) % modes.length]` for
`modes = ['direct', 'mjpeg', 'img', 'webcam']`. -/
def nextVideoMode : VideoMode → VideoMode
  | .direct => .mjpeg
  | .mjpeg => .img
  | .img => .webcam
  | .webcam => .direct

/-- `Object.values(retryAttempts).every(attempts => attempts >= maxRetries)`. -/
def allModesAtCap (r : RetryAttempts) : Bool :=
  decide (maxRetries ≤ r.direct) && decide (maxRetries ≤ r.mjpeg) &&
  decide (maxRetries ≤ r.img) && decide (maxRetries ≤ r.webcam)

/-- The terminal aggregate error set by `switchToNextMode` (lines 252-255). -/
def connectionFailedError : CameraError :=
  ⟨"connection",
   "Unable to connect to camera after trying all modes. Please check your camera settings."⟩

/-- `switchToNextMode` (CameraFeed.tsx lines 245-277): if every mode's
counter has reached the cap, set the terminal aggregate error; otherwise
increment the *next* mode's counter, advance `videoMode` to the next mode,
and point `usingDeviceCamera` at whether that next mode is `webcam`. -/
def switchToNextMode (s : FeedState) : FeedState :=
  let nextMode := nextVideoMode s.videoMode
  if allModesAtCap s.retryAttempts then
    { s with error := some connectionFailedError, loading := false }
  else
    { s with retryAttempts := s.retryAttempts.bump nextMode,
             videoMode := nextMode,
             usingDeviceCamera := nextMode = VideoMode.webcam }

/-- `handleError` (CameraFeed.tsx lines 291-303): if the current mode's
counter is under the cap, call `switchToNextMode`; else set a terminal
load-failure error. -/
def handleError (message : String) (s : FeedState) : FeedState :=
  if s.retryAttempts.get s.videoMode < maxRetries then
    switchToNextMode s
  else
    { s with error := some ⟨"error", "Failed to load camera feed: " ++ message⟩,
             loading := false }

/-- `handleLoad` (lines 279-289): a successful probe clears loading and error. -/
def handleLoad (s : FeedState) : FeedState :=
  { s with loading := false, error := none }

/-- The CORS-bypass switch handler (`onCheckedChange`, lines 438-453):
store the new flag, clear the error, set loading, restart the ladder at
`direct` and zero every retry counter. -/
def corsToggle (checked : Bool) (s : FeedState) : FeedState :=
  { s with useCorsBypass := checked,
           error := none,
           loading := true,
           videoMode := VideoMode.direct,
           retryAttempts := RetryAttempts.zero }

/-- `reloadCamera` (lines 305-327). -/
def reloadCamera (s : FeedState) : FeedState :=
  { s with loading := true,
           error := none,
           retryAttempts := RetryAttempts.zero,
           videoMode := if s.usingDeviceCamera then VideoMode.webcam else VideoMode.direct }

/-- The mode-cycle button (lines 569-588): cycles `direct → mjpeg → img →
direct` and zeroes the counter of the mode being switched to. -/
def cycleMode (s : FeedState) : FeedState :=
  let nextMode := if s.videoMode = VideoMode.direct then VideoMode.mjpeg
    else if s.videoMode = VideoMode.mjpeg then VideoMode.img
    else VideoMode.direct
  { s with videoMode := nextMode,
           retryAttempts := s.retryAttempts.clear nextMode }

/-- The reset `useEffect` (lines 65-77): whenever `usingDeviceCamera` (or
the camera URL) changes while the remote source is selected, loading is
set, the error cleared, all counters zeroed and the ladder restarted at
`direct`. -/
def resetEffect (s : FeedState) : FeedState :=
  { s with loading := true,
           error := none,
           retryAttempts := RetryAttempts.zero,
           videoMode := VideoMode.direct }

/-- `toggleCameraSource` (lines 345-363), composed with the reset effect
that fires when `usingDeviceCamera` changes to `false`. -/
def toggleCameraSource (s : FeedState) : FeedState :=
  let s' := { s with usingDeviceCamera := !s.usingDeviceCamera,
                     loading := true,
                     error := none,
                     videoMode := if !s.usingDeviceCamera then VideoMode.webcam
                       else VideoMode.direct }
  if s'.usingDeviceCamera then s' else resetEffect s'

/-- The device-camera error paths of the webcam mode (lines 95-101,
155-173): they only set an error and clear loading. -/
def deviceCameraFail (e : CameraError) (s : FeedState) : FeedState :=
  { s with error := some e, loading := false }

/-- The component's initial state (`useState` initializers, lines 43-59). -/
def initFeedState : FeedState :=
  { loading := true,
    error := none,
    useCorsBypass := true,
    videoMode := VideoMode.direct,
    retryAttempts := RetryAttempts.zero,
    usingDeviceCamera := false }

/-- One user-visible event of the `CameraFeed` component.  The guards record
when the corresponding handler can actually fire: the probing `<img>` is
rendered only when there is no error and the mode is not `webcam`
(lines 496, 509, 524); the mode-cycle button only without error on the
remote source (lines 496, 569); the CORS switch and the reload button only
inside the error panel (lines 410, 435, 461); the source-toggle button in
both panels (lines 474, 547). -/
inductive FeedStep : FeedState → FeedState → Prop where
  | probeFail (s : FeedState) (h1 : s.error = none) (h2 : s.videoMode ≠ VideoMode.webcam) :
      FeedStep s (handleError "Failed to load camera feed" s)
  | probeLoad (s : FeedState) (h1 : s.error = none) (h2 : s.videoMode ≠ VideoMode.webcam) :
      FeedStep s (handleLoad s)
  | cycleClick (s : FeedState) (h1 : s.error = none) (h2 : s.usingDeviceCamera = false) :
      FeedStep s (cycleMode s)
  | corsClick (c : Bool) (s : FeedState) (h1 : s.error ≠ none)
      (h2 : s.usingDeviceCamera = false) :
      FeedStep s (corsToggle c s)
  | reloadClick (s : FeedState) (h : s.error ≠ none) :
      FeedStep s (reloadCamera s)
  | sourceToggle (s : FeedState) :
      FeedStep s (toggleCameraSource s)
  | urlChange (s : FeedState) (h : s.usingDeviceCamera = false) :
      FeedStep s (resetEffect s)
  | deviceFail (e : CameraError) (s : FeedState) (h : s.videoMode = VideoMode.webcam) :
      FeedStep s (deviceCameraFail e s)

/-- The states of the `CameraFeed` component reachable from its initial
state through the event handlers. -/
inductive FeedReachable : FeedState → Prop where
  | init : FeedReachable initFeedState
  | step {s s' : FeedState} (hs : FeedReachable s) (h : FeedStep s s') : FeedReachable s'

/-- Claim C1, counterexample: after the very first probe failure (current
mode `direct`, counter 0, well under the cap) the code does not retry
`direct` with its counter incremented; it advances to `mjpeg` immediately,
leaves the `direct` counter at 0 and sets the `mjpeg` counter to 1. -/
theorem claim1_counterexample :
    (handleError "Failed to load camera feed" initFeedState).videoMode = VideoMode.mjpeg ∧
    (handleError "Failed to load camera feed" initFeedState).retryAttempts.direct = 0 ∧
    (handleError "Failed to load camera feed" initFeedState).retryAttempts.mjpeg = 1 := by
  refine ⟨rfl, rfl, rfl⟩

/-- Claim C1, amended: on probe failure, while the current mode's counter is
under the cap (and not every counter has reached the cap), the ladder
advances immediately to the next mode, incrementing the *next* mode's
counter and leaving the current mode's counter unchanged; only once the
current mode's counter has reached the cap is a terminal load-failure
error reported. -/
theorem claim1_amended_theorem (message : String) (s : FeedState) :
    (s.retryAttempts.get s.videoMode < maxRetries →
      allModesAtCap s.retryAttempts = false →
      (handleError message s).videoMode = nextVideoMode s.videoMode ∧
      (handleError message s).retryAttempts.get (nextVideoMode s.videoMode) =
        s.retryAttempts.get (nextVideoMode s.videoMode) + 1 ∧
      (handleError message s).retryAttempts.get s.videoMode =
        s.retryAttempts.get s.videoMode ∧
      (handleError message s).error = s.error) ∧
    (maxRetries ≤ s.retryAttempts.get s.videoMode →
      (handleError message s).error =
        some ⟨"error", "Failed to load camera feed: " ++ message⟩ ∧
      (handleError message s).loading = false) := by
  constructor
  · intro h1 h2
    rw [handleError, if_pos h1, switchToNextMode]
    simp only [h2, Bool.false_eq_true, if_false]
    cases s.videoMode <;>
      simp [RetryAttempts.bump, RetryAttempts.get, nextVideoMode]
  · intro h
    rw [handleError, if_neg (Nat.not_lt.mpr h)]
    exact ⟨rfl, rfl⟩

/-- A state with every counter at the cap, used to witness the terminal
branch of the amended claim C1. -/
def cappedFeedState : FeedState :=
  { initFeedState with retryAttempts := ⟨3, 4, 3, 3⟩, videoMode := VideoMode.mjpeg }

/-- The concrete probe-failure message used in the C1 witness. -/
def probeMessage : String := "probe error"

/-- Claim C1 amended, witness: the advancing branch evaluated at the initial
state and the terminal branch at a state whose current mode is at the cap. -/
theorem claim1_amended_witness :
    (initFeedState.retryAttempts.get initFeedState.videoMode < maxRetries ∧
     allModesAtCap initFeedState.retryAttempts = false ∧
     (handleError probeMessage initFeedState).videoMode =
       nextVideoMode initFeedState.videoMode) ∧
    (maxRetries ≤ cappedFeedState.retryAttempts.get cappedFeedState.videoMode ∧
     (handleError probeMessage cappedFeedState).error =
       some ⟨"error", "Failed to load camera feed: probe error"⟩) :=
  ⟨⟨by decide, by decide,
    ((claim1_amended_theorem probeMessage initFeedState).1 (by decide) (by decide)).1⟩,
   ⟨by decide,
    ((claim1_amended_theorem probeMessage cappedFeedState).2 (by decide)).1⟩⟩

/-- The inductive invariant of the feed machine that drives claim C2:
the `direct` counter stays 0 (no event can increment it, because probe
failures never fire in `webcam` mode), the `webcam` counter stays at most
1, and it is 1 only while the device camera is active. -/
def feedInv (s : FeedState) : Prop :=
  s.retryAttempts.direct = 0 ∧
  s.retryAttempts.webcam ≤ 1 ∧
  (s.retryAttempts.webcam = 1 →
    s.videoMode = VideoMode.webcam ∧ s.usingDeviceCamera = true)

/-- The invariant holds initially. -/
theorem feedInv_init : feedInv initFeedState := by
  refine ⟨rfl, by decide, ?_⟩
  intro h
  exact absurd h (by decide)

/-- Every feed event preserves the invariant. -/
theorem feedStep_inv {s s' : FeedState} (h : FeedStep s s') (hi : feedInv s) :
    feedInv s' := by
  obtain ⟨hd, hw, hcl⟩ := hi
  cases h with
  | probeFail s h1 h2 =>
    rw [handleError]
    split
    · rw [switchToNextMode]
      split
      · exact ⟨hd, hw, fun h => hcl h⟩
      · cases hv : s.videoMode with
        | webcam => exact absurd hv h2
        | direct =>
          refine ⟨by simpa [nextVideoMode, RetryAttempts.bump] using hd,
            by simpa [nextVideoMode, RetryAttempts.bump] using hw, fun h' => ?_⟩
          simp only [nextVideoMode, RetryAttempts.bump] at h'
          have hvm := (hcl h').1
          rw [hv] at hvm
          exact absurd hvm (by decide)
        | mjpeg =>
          refine ⟨by simpa [nextVideoMode, RetryAttempts.bump] using hd,
            by simpa [nextVideoMode, RetryAttempts.bump] using hw, fun h' => ?_⟩
          simp only [nextVideoMode, RetryAttempts.bump] at h'
          have hvm := (hcl h').1
          rw [hv] at hvm
          exact absurd hvm (by decide)
        | img =>
          have hw0 : s.retryAttempts.webcam = 0 := by
            rcases Nat.lt_or_ge s.retryAttempts.webcam 1 with h' | h'
            · omega
            · have h1' : s.retryAttempts.webcam = 1 := by omega
              have hvm := (hcl h1').1
              rw [hv] at hvm
              exact absurd hvm (by decide)
          exact ⟨by simpa [nextVideoMode, RetryAttempts.bump] using hd,
            by simp [nextVideoMode, RetryAttempts.bump, hw0],
            fun _ => ⟨by simp [nextVideoMode], by simp [nextVideoMode]⟩⟩
    · exact ⟨hd, hw, fun h => hcl h⟩
  | probeLoad s h1 h2 => exact ⟨hd, hw, fun h => hcl h⟩
  | cycleClick s h1 h2 =>
    have hw0 : s.retryAttempts.webcam ≠ 1 := fun h => by
      have hu := (hcl h).2
      rw [hu] at h2
      exact absurd h2 (by decide)
    rw [cycleMode]
    split
    · exact ⟨hd, by simpa [RetryAttempts.clear] using hw,
        fun h => absurd (by simpa [RetryAttempts.clear] using h) hw0⟩
    · split
      · exact ⟨hd, by simpa [RetryAttempts.clear] using hw,
          fun h => absurd (by simpa [RetryAttempts.clear] using h) hw0⟩
      · exact ⟨by simp [RetryAttempts.clear], by simpa [RetryAttempts.clear] using hw,
          fun h => absurd (by simpa [RetryAttempts.clear] using h) hw0⟩
  | corsClick c s h1 h2 =>
    refine ⟨rfl, ?_, ?_⟩ <;> simp [corsToggle, RetryAttempts.zero]
  | reloadClick s h =>
    refine ⟨rfl, ?_, ?_⟩ <;> simp [reloadCamera, RetryAttempts.zero]
  | sourceToggle s =>
    rw [toggleCameraSource]
    split
    · rename_i hcond
      refine ⟨hd, hw, fun _ => ⟨?_, hcond⟩⟩
      simp only [Bool.not_eq_true'] at hcond
      simp [hcond]
    · refine ⟨rfl, ?_, ?_⟩ <;> simp [resetEffect, RetryAttempts.zero]
  | urlChange s h =>
    refine ⟨rfl, ?_, ?_⟩ <;> simp [resetEffect, RetryAttempts.zero]
  | deviceFail e s h => exact ⟨hd, hw, fun h => hcl h⟩

/-- The invariant holds in every reachable state. -/
theorem feedReachable_inv (s : FeedState) (h : FeedReachable s) : feedInv s := by
  induction h with
  | init => exact feedInv_init
  | step hs hstep ih => exact feedStep_inv hstep ih

/-- A reachable state whose `mjpeg` retry counter exceeds `maxRetries`:
mode-cycle clicks reset the counter of the mode being entered, so repeated
`direct` failures keep bumping `mjpeg` past the cap. -/
def overCapFeedState : FeedState :=
  { loading := true,
    error := none,
    useCorsBypass := true,
    videoMode := VideoMode.mjpeg,
    retryAttempts := ⟨0, 4, 0, 0⟩,
    usingDeviceCamera := false }

/-- Claim C2, counterexample: a reachable state in which the `mjpeg` retry
counter is 4, strictly above `maxRetries = 3` — the per-mode cap does not
hold.  The trace alternates probe failures with mode-cycle clicks (which
zero the counter of the mode they enter). -/
theorem claim2_counterexample :
    FeedReachable overCapFeedState ∧
    maxRetries < overCapFeedState.retryAttempts.mjpeg := by
  refine ⟨?_, by decide⟩
  have h0 := FeedReachable.init
  have h1 := FeedReachable.step h0 (FeedStep.probeFail _ rfl (by decide))
  have h2 := FeedReachable.step h1 (FeedStep.cycleClick _ rfl (by decide))
  have h3 := FeedReachable.step h2 (FeedStep.cycleClick _ rfl (by decide))
  have h4 := FeedReachable.step h3 (FeedStep.probeFail _ rfl (by decide))
  have h5 := FeedReachable.step h4 (FeedStep.cycleClick _ rfl (by decide))
  have h6 := FeedReachable.step h5 (FeedStep.cycleClick _ rfl (by decide))
  have h7 := FeedReachable.step h6 (FeedStep.probeFail _ rfl (by decide))
  have h8 := FeedReachable.step h7 (FeedStep.cycleClick _ rfl (by decide))
  have h9 := FeedReachable.step h8 (FeedStep.cycleClick _ rfl (by decide))
  exact FeedReachable.step h9 (FeedStep.probeFail _ rfl (by decide))

/-- Claim C2, amended: the `direct` and `webcam` counters do stay within the
cap in every reachable state (`direct` in fact stays 0, so the
all-modes-exhausted condition is never reached and the aggregate
connection-failure branch is dead for reachable states); if
`switchToNextMode` is invoked in a state with every counter at the cap it
sets the terminal aggregate connection-failure error; but the `mjpeg` and
`img` counters can exceed the cap (see the counterexample). -/
theorem claim2_amended_theorem :
    (∀ s : FeedState, FeedReachable s →
      s.retryAttempts.direct = 0 ∧
      s.retryAttempts.webcam ≤ maxRetries ∧
      allModesAtCap s.retryAttempts = false) ∧
    (∀ s : FeedState, allModesAtCap s.retryAttempts = true →
      (switchToNextMode s).error = some connectionFailedError ∧
      (switchToNextMode s).loading = false) := by
  constructor
  · intro s hs
    obtain ⟨hd, hw, _⟩ := feedReachable_inv s hs
    refine ⟨hd, le_trans hw (by decide), ?_⟩
    simp [allModesAtCap, hd, maxRetries]
  · intro s hcap
    rw [switchToNextMode, if_pos hcap]
    exact ⟨rfl, rfl⟩

/-- Claim C2 amended, witness: the reachable-state part evaluated at the
initial state and the terminal branch evaluated at an all-capped state. -/
theorem claim2_amended_witness :
    (initFeedState.retryAttempts.direct = 0 ∧
     allModesAtCap initFeedState.retryAttempts = false) ∧
    (allModesAtCap (⟨3, 3, 3, 3⟩ : RetryAttempts) = true ∧
     (switchToNextMode { initFeedState with retryAttempts := ⟨3, 3, 3, 3⟩ }).error =
       some connectionFailedError) :=
  ⟨⟨(claim2_amended_theorem.1 initFeedState FeedReachable.init).1,
    (claim2_amended_theorem.1 initFeedState FeedReachable.init).2.2⟩,
   ⟨by decide,
    (claim2_amended_theorem.2 { initFeedState with retryAttempts := ⟨3, 3, 3, 3⟩ }
      (by decide)).1⟩⟩

/-- Claim C6: toggling the CORS-bypass switch, from any component state and
with either switch value, zeroes every transport mode's retry counter,
restarts the ladder at the first mode (`direct`), clears the error and
re-enters the loading state. -/
theorem claim6_theorem (checked : Bool) (s : FeedState) :
    (corsToggle checked s).retryAttempts = RetryAttempts.zero ∧
    (corsToggle checked s).videoMode = VideoMode.direct ∧
    (corsToggle checked s).error = none ∧
    (corsToggle checked s).loading = true ∧
    (corsToggle checked s).useCorsBypass = checked :=
  ⟨rfl, rfl, rfl, rfl, rfl⟩

/-! ## Camera enumeration and classification (cameraDetection utilities)

`identifyCameras` exists in two revisions in the repository: the enhanced
one (with a `getDeviceType()`-dependent positional fallback) and the plain
one (with an `otherCameras.shift()` fallback).  Both are embedded. -/

/-- One entry of `navigator.mediaDevices.enumerateDevices()`. -/
structure MediaDeviceInfo where
  deviceId : String
  label : String
  kind : String
deriving DecidableEq, Repr

/-- The result of `getDeviceType()` (user-agent sniffing). -/
inductive DeviceType where
  | mobile
  | desktop
deriving DecidableEq, Repr

/-- JavaScript `String.prototype.toLowerCase` on the character list. -/
def lowerList (s : String) : List Char :=
  s.toList.map Char.toLower

/-- JavaScript `haystack.includes(needle)` on character lists. -/
def listContains (pat : List Char) : List Char → Bool
  | [] => pat.isEmpty
  | c :: cs => pat.isPrefixOf (c :: cs) || listContains pat cs

/-- `label.toLowerCase().includes(keyword)`. -/
def labelIncludes (label keyword : String) : Bool :=
  listContains keyword.toList (lowerList label)

/-- Front-keyword match of the enhanced `identifyCameras`
(`front/user/selfie/face`). -/
def labelHasFront (label : String) : Bool :=
  labelIncludes label "front" || labelIncludes label "user" ||
  labelIncludes label "selfie" || labelIncludes label "face"

/-- Back-keyword match of the enhanced `identifyCameras`
(`back/rear/environment/external`). -/
def labelHasBack (label : String) : Bool :=
  labelIncludes label "back" || labelIncludes label "rear" ||
  labelIncludes label "environment" || labelIncludes label "external"

/-- Front-keyword match of the plain `identifyCameras` revision
(`front/user/selfie`). -/
def labelHasFrontAlt (label : String) : Bool :=
  labelIncludes label "front" || labelIncludes label "user" ||
  labelIncludes label "selfie"

/-- Back-keyword match of the plain `identifyCameras` revision
(`back/rear/environment`). -/
def labelHasBackAlt (label : String) : Bool :=
  labelIncludes label "back" || labelIncludes label "rear" ||
  labelIncludes label "environment"

/-- The classification result `{frontCamera, backCamera, otherCameras}`. -/
structure CameraClassification where
  frontCamera : Option MediaDeviceInfo
  backCamera : Option MediaDeviceInfo
  otherCameras : List MediaDeviceInfo
deriving DecidableEq, Repr

/-- The shared label-matching loop of both `identifyCameras` revisions:
a device matching the front keywords overwrites `frontCamera`, else a
device matching the back keywords overwrites `backCamera`, else the device
is appended to `otherCameras`. -/
def identifyLoop (hasF hasB : String → Bool) :
    List MediaDeviceInfo → Option MediaDeviceInfo → Option MediaDeviceInfo →
    List MediaDeviceInfo → CameraClassification
  | [], front, back, others => ⟨front, back, others⟩
  | d :: ds, front, back, others =>
    if hasF d.label then identifyLoop hasF hasB ds (some d) back others
    else if hasB d.label then identifyLoop hasF hasB ds front (some d) others
    else identifyLoop hasF hasB ds front back (others ++ [d])

/-- The positional fallback of the enhanced `identifyCameras`
(`src/unnamed/part_000` lines 125-140): when no label matched, on mobile
with several devices the first is guessed as back and the second as front;
otherwise the first is front and, when present, the second becomes back. -/
def identifyFallback (deviceType : DeviceType) (devices : List MediaDeviceInfo)
    (c : CameraClassification) : CameraClassification :=
  if c.frontCamera = none ∧ c.backCamera = none ∧ 0 < devices.length then
    if deviceType = DeviceType.mobile ∧ 1 < devices.length then
      { c with backCamera := devices[0]?, frontCamera := devices[1]? }
    else if 0 < devices.length then
      { c with frontCamera := devices[0]?,
               backCamera := if 1 < devices.length then devices[1]? else c.backCamera }
    else c
  else c

/-- `identifyCameras` from `src/unnamed/part_000` (lines 93-143). -/
def identifyCameras (deviceType : DeviceType) (devices : List MediaDeviceInfo) :
    CameraClassification :=
  identifyFallback deviceType devices
    (identifyLoop labelHasFront labelHasBack devices none none [])

/-- The `otherCameras.shift()` fallback of the plain `identifyCameras`
revision (`src/unnamed/part_001` lines 352-361). -/
def identifyFallbackAlt (c : CameraClassification) : CameraClassification :=
  if c.frontCamera = none ∧ c.backCamera = none then
    match c.otherCameras with
    | a :: b :: rest => ⟨some a, some b, rest⟩
    | [a] => ⟨some a, none, []⟩
    | [] => c
  else c

/-- `identifyCameras` from `src/unnamed/part_001` (lines 331-364). -/
def identifyCamerasAlt (devices : List MediaDeviceInfo) : CameraClassification :=
  identifyFallbackAlt (identifyLoop labelHasFrontAlt labelHasBackAlt devices none none [])

/-- `!!(frontCamera && backCamera)`, the derivation of
`hasFrontAndBackCamera` (use-camera.tsx line 86). -/
def hasFrontAndBack (c : CameraClassification) : Bool :=
  c.frontCamera.isSome && c.backCamera.isSome

/-- Through the label loop, a stored front camera always matches the front
keywords and a stored back camera matches the back but not the front
keywords. -/
theorem identifyLoop_labels (hasF hasB : String → Bool)
    (devices : List MediaDeviceInfo) :
    ∀ front back others,
    (∀ f, front = some f → hasF f.label = true) →
    (∀ b, back = some b → hasF b.label = false ∧ hasB b.label = true) →
    (∀ f, (identifyLoop hasF hasB devices front back others).frontCamera = some f →
      hasF f.label = true) ∧
    (∀ b, (identifyLoop hasF hasB devices front back others).backCamera = some b →
      hasF b.label = false ∧ hasB b.label = true) := by
  induction devices with
  | nil =>
    intro front back others hf hb
    exact ⟨hf, hb⟩
  | cons d ds ih =>
    intro front back others hf hb
    rw [identifyLoop]
    split
    · rename_i hF
      refine ih (some d) back others (fun f hfd => ?_) hb
      have hd := Option.some_inj.mp hfd
      subst hd
      exact hF
    · split
      · rename_i hF hB
        refine ih front (some d) others hf fun b hbd => ?_
        have hd := Option.some_inj.mp hbd
        subst hd
        exact ⟨by simpa using hF, hB⟩
      · exact ih front back (others ++ [d]) hf hb

/-- The label loop only appends to `otherCameras`, and what it appends is a
sublist of the scanned devices. -/
theorem identifyLoop_others (hasF hasB : String → Bool)
    (devices : List MediaDeviceInfo) :
    ∀ front back others,
    ∃ extra,
      (identifyLoop hasF hasB devices front back others).otherCameras =
        others ++ extra ∧ extra.Sublist devices := by
  induction devices with
  | nil =>
    intro front back others
    exact ⟨[], by simp [identifyLoop]⟩
  | cons d ds ih =>
    intro front back others
    rw [identifyLoop]
    split
    · obtain ⟨extra, he, hs⟩ := ih (some d) back others
      exact ⟨extra, he, hs.cons d⟩
    · split
      · obtain ⟨extra, he, hs⟩ := ih front (some d) others
        exact ⟨extra, he, hs.cons d⟩
      · obtain ⟨extra, he, hs⟩ := ih front back (others ++ [d])
        exact ⟨d :: extra, by simpa using he, hs.cons₂ d⟩

/-- In a duplicate-free list the first two entries differ. -/
theorem nodup_first_two {l : List MediaDeviceInfo} (h : l.Nodup)
    {a b : MediaDeviceInfo} (h0 : l[0]? = some a) (h1 : l[1]? = some b) :
    a ≠ b := by
  match l, h0, h1 with
  | x :: y :: t, h0, h1 =>
    simp at h0 h1
    subst h0; subst h1
    simp [List.nodup_cons] at h
    intro hab
    exact h.1.1 hab

/-- Claim C7: for a single-device list whose label matches no front/back
keyword, the enhanced `identifyCameras` assigns that device as the front
camera (on mobile and desktop alike, since the mobile guess needs at least
two devices), leaves the back camera unassigned, and the derived
`hasFrontAndBackCamera` flag is `false`. -/
theorem claim7_theorem (dt : DeviceType) (d : MediaDeviceInfo)
    (hf : labelHasFront d.label = false) (hb : labelHasBack d.label = false) :
    (identifyCameras dt [d]).frontCamera = some d ∧
    (identifyCameras dt [d]).backCamera = none ∧
    hasFrontAndBack (identifyCameras dt [d]) = false := by
  have hloop : identifyLoop labelHasFront labelHasBack [d] none none [] =
      ⟨none, none, [d]⟩ := by
    simp [identifyLoop, hf, hb]
  rw [identifyCameras, hloop, identifyFallback]
  rw [if_pos ⟨rfl, rfl, by simp⟩, if_neg (by simp), if_pos (by simp)]
  exact ⟨by simp, by simp, by simp [hasFrontAndBack]⟩

/-- A device whose label matches neither keyword set. -/
def unlabeledDevice : MediaDeviceInfo :=
  ⟨"cam1", "USB2.0 HD UVC WebCam", "videoinput"⟩

/-- Claim C7, witness: the classification evaluated on a concrete
single-entry device list with a neutral label. -/
theorem claim7_witness :
    labelHasFront unlabeledDevice.label = false ∧
    labelHasBack unlabeledDevice.label = false ∧
    (identifyCameras DeviceType.desktop [unlabeledDevice]).frontCamera =
      some unlabeledDevice ∧
    hasFrontAndBack (identifyCameras DeviceType.desktop [unlabeledDevice]) = false :=
  ⟨by decide, by decide,
   (claim7_theorem DeviceType.desktop unlabeledDevice (by decide) (by decide)).1,
   (claim7_theorem DeviceType.desktop unlabeledDevice (by decide) (by decide)).2.2⟩

/-- Claim C10: neither revision of `identifyCameras` ever returns the same
device as both front and back camera, for any duplicate-free device list:
in the label path the two slots hold devices with incompatible label
matches, and every positional-fallback path picks distinct positions. -/
theorem claim10_theorem :
    (∀ (dt : DeviceType) (devices : List MediaDeviceInfo), devices.Nodup →
      ∀ f b, (identifyCameras dt devices).frontCamera = some f →
        (identifyCameras dt devices).backCamera = some b → f ≠ b) ∧
    (∀ devices : List MediaDeviceInfo, devices.Nodup →
      ∀ f b, (identifyCamerasAlt devices).frontCamera = some f →
        (identifyCamerasAlt devices).backCamera = some b → f ≠ b) := by
  constructor
  · intro dt devices hnd f b hf hb
    rw [identifyCameras, identifyFallback] at hf hb
    by_cases hcond :
        ((identifyLoop labelHasFront labelHasBack devices none none []).frontCamera = none ∧
         (identifyLoop labelHasFront labelHasBack devices none none []).backCamera = none ∧
         0 < devices.length)
    · rw [if_pos hcond] at hf hb
      by_cases hmob : (dt = DeviceType.mobile ∧ 1 < devices.length)
      · rw [if_pos hmob] at hf hb
        simp only at hf hb
        exact (nodup_first_two hnd hb hf).symm
      · rw [if_neg hmob, if_pos hcond.2.2] at hf hb
        simp only at hf hb
        by_cases hlen : 1 < devices.length
        · rw [if_pos hlen] at hb
          exact nodup_first_two hnd hf hb
        · rw [if_neg hlen] at hb
          rw [hcond.2.1] at hb
          exact absurd hb (by simp)
    · rw [if_neg hcond] at hf hb
      obtain ⟨hF, hB⟩ := identifyLoop_labels labelHasFront labelHasBack devices
        none none [] (by simp) (by simp)
      have h1 := hF f hf
      have h2 := (hB b hb).1
      intro hfb
      rw [hfb, h2] at h1
      exact absurd h1 (by decide)
  · intro devices hnd f b hf hb
    rw [identifyCamerasAlt, identifyFallbackAlt] at hf hb
    by_cases hcond :
        ((identifyLoop labelHasFrontAlt labelHasBackAlt devices none none []).frontCamera = none ∧
         (identifyLoop labelHasFrontAlt labelHasBackAlt devices none none []).backCamera = none)
    · rw [if_pos hcond] at hf hb
      obtain ⟨extra, he, hs⟩ :=
        identifyLoop_others labelHasFrontAlt labelHasBackAlt devices none none []
      have hnd' : (identifyLoop labelHasFrontAlt labelHasBackAlt devices
          none none []).otherCameras.Nodup := by
        rw [he]
        simpa using hs.nodup hnd
      cases ho : (identifyLoop labelHasFrontAlt labelHasBackAlt devices
          none none []).otherCameras with
      | nil =>
        rw [ho] at hf
        simp only at hf
        rw [hcond.1] at hf
        exact absurd hf (by simp)
      | cons a t =>
        cases t with
        | nil =>
          rw [ho] at hb
          simp only at hb
          exact absurd hb (by simp)
        | cons a2 t2 =>
          rw [ho] at hf hb
          simp only [Option.some_inj] at hf hb
          rw [ho] at hnd'
          subst hf
          subst hb
          simp [List.nodup_cons] at hnd'
          intro hfb
          exact hnd'.1.1 hfb
    · rw [if_neg hcond] at hf hb
      obtain ⟨hF, hB⟩ := identifyLoop_labels labelHasFrontAlt labelHasBackAlt devices
        none none [] (by simp) (by simp)
      have h1 := hF f hf
      have h2 := (hB b hb).1
      intro hfb
      rw [hfb, h2] at h1
      exact absurd h1 (by decide)

/-- A device labeled as a front camera. -/
def frontLabeledDevice : MediaDeviceInfo := ⟨"id-front", "Front Camera", "videoinput"⟩

/-- A device labeled as a back camera. -/
def backLabeledDevice : MediaDeviceInfo := ⟨"id-back", "Back Camera", "videoinput"⟩

/-- An unlabeled device used in the fallback-path witness. -/
def plainDeviceA : MediaDeviceInfo := ⟨"id-a", "Camera A", "videoinput"⟩

/-- A second unlabeled device used in the fallback-path witness. -/
def plainDeviceB : MediaDeviceInfo := ⟨"id-b", "Camera B", "videoinput"⟩

/-- Claim C10, witness: the distinctness conclusion evaluated on a concrete
labeled pair (label path of the enhanced revision) and on a concrete
unlabeled pair (shift fallback of the plain revision). -/
theorem claim10_witness :
    ([frontLabeledDevice, backLabeledDevice].Nodup ∧
     frontLabeledDevice ≠ backLabeledDevice) ∧
    ([plainDeviceA, plainDeviceB].Nodup ∧ plainDeviceA ≠ plainDeviceB) :=
  ⟨⟨by decide,
    claim10_theorem.1 DeviceType.desktop [frontLabeledDevice, backLabeledDevice]
      (by decide) frontLabeledDevice backLabeledDevice (by decide) (by decide)⟩,
   ⟨by decide,
    claim10_theorem.2 [plainDeviceA, plainDeviceB]
      (by decide) plainDeviceA plainDeviceB (by decide) (by decide)⟩⟩

/-! ## Permission and enumeration (`requestCameraPermission`, `src/unnamed/part_000`)

External browser behaviour is supplied through an environment record: the
outcome of `navigator.mediaDevices.getUserMedia`, the device enumeration,
secure-context and API-support flags, and the sink/playback outcomes used
later by the device-camera session. -/

/-- A live media track; `stop()` flips the flag. -/
structure MediaTrack where
  stopped : Bool
deriving DecidableEq, Repr

/-- A `MediaStream` as a bag of tracks. -/
structure MediaStream where
  tracks : List MediaTrack
deriving DecidableEq, Repr

/-- `stream.getTracks().forEach(track => track.stop())`. -/
def MediaStream.stopAll (s : MediaStream) : MediaStream :=
  ⟨s.tracks.map fun _ => ⟨true⟩⟩

/-- The `DOMException` names distinguished by the source. -/
inductive DomErr where
  | notAllowed
  | notFound
  | notReadable
  | overconstrained
  | security
  | unknown (message : String)
deriving DecidableEq, Repr

/-- A `getUserMedia` rejection: either a `DOMException` or some other error. -/
inductive AccessFailure where
  | domEx (e : DomErr)
  | nonDom
deriving DecidableEq, Repr

/-- `CameraPosition` of the device-camera hook (`'front' | 'back' | 'other'`). -/
inductive CameraPosition where
  | front
  | back
  | other
deriving DecidableEq, Repr

/-- The external-world outcomes a camera operation can observe. -/
structure Env where
  deviceType : DeviceType
  supported : Bool
  secure : Bool
  gumResult : Except AccessFailure MediaStream
  enumDevices : List MediaDeviceInfo
  preferredPosition : CameraPosition := CameraPosition.front
  videoElementPresent : Bool
  playSucceeds : Bool
deriving Repr

/-- The user-facing message for each error case of the `catch` block of
`requestCameraPermission` (part_000 lines 56-83). -/
def accessErrorMessage : AccessFailure → String
  | .domEx .notAllowed =>
      "Camera access denied. Please enable camera permissions in your browser settings."
  | .domEx .notFound => "No camera detected on this device."
  | .domEx .notReadable => "Camera is already in use by another application."
  | .domEx .overconstrained => "Camera doesn't meet the required constraints."
  | .domEx .security => "Camera access requires a secure connection (HTTPS)."
  | .domEx (.unknown message) =>
      "Camera error: " ++ (if message = "" then "Unknown error" else message)
  | .nonDom => "Unable to access camera"

/-- The result object of `requestCameraPermission`. -/
structure PermissionResult where
  success : Bool
  devices : Option (List MediaDeviceInfo)
  error : Option String
deriving DecidableEq, Repr

/-- `requestCameraPermission` (part_000 lines 20-85).  The second component
records whether `getUserMedia` (hardware access) was invoked. -/
def requestCameraPermission (env : Env) : PermissionResult × Bool :=
  if !env.supported then
    (⟨false, none, some "Your browser doesn't support camera access"⟩, false)
  else if !env.secure then
    (⟨false, none, some "Camera access requires HTTPS"⟩, false)
  else
    match env.gumResult with
    | .ok _stream =>
      let videoDevices := env.enumDevices.filter fun d => d.kind == "videoinput"
      if videoDevices.length = 0 then
        (⟨false, some [], some "No camera devices detected"⟩, true)
      else
        (⟨true, some videoDevices, none⟩, true)
    | .error e => (⟨false, none, some (accessErrorMessage e)⟩, true)

/-- Claim C8: with a supported media API, `requestCameraPermission` fails
with the not-secure-context error without ever touching `getUserMedia`
when the context is insecure; it fails with the permission-denied message
when the platform rejects the request with `NotAllowedError`; and it fails
with the no-devices error when enumeration yields zero video inputs. -/
theorem claim8_theorem (env : Env) (hsup : env.supported = true) :
    (env.secure = false →
      requestCameraPermission env =
        (⟨false, none, some "Camera access requires HTTPS"⟩, false)) ∧
    (env.secure = true →
      env.gumResult = Except.error (AccessFailure.domEx DomErr.notAllowed) →
      (requestCameraPermission env).1.success = false ∧
      (requestCameraPermission env).1.error = some
        "Camera access denied. Please enable camera permissions in your browser settings.") ∧
    (env.secure = true → ∀ st, env.gumResult = Except.ok st →
      (env.enumDevices.filter fun d => d.kind == "videoinput") = [] →
      (requestCameraPermission env).1.success = false ∧
      (requestCameraPermission env).1.error = some "No camera devices detected") := by
  refine ⟨?_, ?_, ?_⟩
  · intro hsec
    rw [requestCameraPermission, if_neg (by simp [hsup]), if_pos (by simp [hsec])]
  · intro hsec hgum
    rw [requestCameraPermission, if_neg (by simp [hsup]), if_neg (by simp [hsec]), hgum]
    exact ⟨rfl, rfl⟩
  · intro hsec st hgum hemp
    rw [requestCameraPermission, if_neg (by simp [hsup]), if_neg (by simp [hsec]), hgum]
    simp [hemp]

/-- An environment with an insecure context. -/
def insecureEnv : Env :=
  { deviceType := DeviceType.desktop,
    supported := true,
    secure := false,
    gumResult := Except.error AccessFailure.nonDom,
    enumDevices := [],
    videoElementPresent := true,
    playSucceeds := true }

/-- An environment whose platform denies camera access. -/
def deniedEnv : Env :=
  { insecureEnv with
    secure := true,
    gumResult := Except.error (AccessFailure.domEx DomErr.notAllowed) }

/-- An environment that grants access but enumerates no video inputs. -/
def noDevicesEnv : Env :=
  { insecureEnv with
    secure := true,
    gumResult := Except.ok ⟨[⟨false⟩]⟩,
    enumDevices := [⟨"mic0", "Microphone", "audioinput"⟩] }

/-- Claim C8, witness: the three failure modes evaluated in concrete
environments. -/
theorem claim8_witness :
    (requestCameraPermission insecureEnv).2 = false ∧
    (requestCameraPermission deniedEnv).1.error = some
      "Camera access denied. Please enable camera permissions in your browser settings." ∧
    (requestCameraPermission noDevicesEnv).1.error = some "No camera devices detected" :=
  ⟨by rw [(claim8_theorem insecureEnv rfl).1 rfl],
   ((claim8_theorem deniedEnv rfl).2.1 rfl rfl).2,
   ((claim8_theorem noDevicesEnv rfl).2.2 rfl ⟨[⟨false⟩]⟩ rfl (by decide)).2⟩

/-! ## Device camera session (`src/hooks/use-camera.tsx`)

The hook's React state is a record and each operation a pure function on
it; a `setX(v)` call is modeled as an immediate field update.  The
released (stopped) previous stream is returned alongside the new state so
that theorems can talk about the prior session's tracks. -/

/-- The state of the `useCamera` hook. -/
structure CamState where
  devices : List MediaDeviceInfo
  currentDevice : Option MediaDeviceInfo
  isLoading : Bool
  isActive : Bool
  hasPermission : Bool
  error : Option String
  cameraPosition : CameraPosition
  hasFrontAndBackCamera : Bool
  streamRef : Option MediaStream
deriving DecidableEq, Repr

/-- `stopCurrentStream` (use-camera.tsx lines 51-57): stop every track of
the held stream, clear the ref and the active flag.  Returns the released
stream (with its tracks stopped) for observation. -/
def stopCurrentStream (s : CamState) : CamState × Option MediaStream :=
  match s.streamRef with
  | some ms => ({ s with streamRef := none, isActive := false }, some ms.stopAll)
  | none => (s, none)

/-- The initial-device pick of `initializeCamera` (lines 88-103). -/
def pickInitialDevice (pref : CameraPosition) (devs : List MediaDeviceInfo)
    (c : CameraClassification) : Option MediaDeviceInfo × Option CameraPosition :=
  if pref = CameraPosition.front ∧ c.frontCamera.isSome then
    (c.frontCamera, some CameraPosition.front)
  else if pref = CameraPosition.back ∧ c.backCamera.isSome then
    (c.backCamera, some CameraPosition.back)
  else if 0 < devs.length then
    (devs[0]?,
     some (if devs[0]? = c.frontCamera then CameraPosition.front
           else if devs[0]? = c.backCamera then CameraPosition.back
           else CameraPosition.other))
  else (none, none)

/-- `initializeCamera` (lines 60-116): secure-context check, permission
request, device-list storage, front/back detection, initial device pick. -/
def initializeCamera (env : Env) (s : CamState) : CamState × Bool :=
  let s := { s with isLoading := true, error := none }
  if !env.secure then
    ({ s with error := some "Camera access requires a secure context (HTTPS)",
              isLoading := false }, false)
  else
    let result := (requestCameraPermission env).1
    if !result.success then
      ({ s with error := some (result.error.getD "Unable to access camera"),
                isLoading := false, hasPermission := false }, false)
    else
      let s := { s with hasPermission := true }
      match result.devices with
      | some devs =>
        if 0 < devs.length then
          let c := identifyCameras env.deviceType devs
          let s := { s with devices := devs,
                            hasFrontAndBackCamera := hasFrontAndBack c }
          let (initialDevice, pos) := pickInitialDevice env.preferredPosition devs c
          let s := { s with cameraPosition := pos.getD s.cameraPosition,
                            currentDevice :=
                              if initialDevice.isSome then initialDevice
                              else s.currentDevice }
          ({ s with isLoading := false }, true)
        else
          ({ s with error := some "No cameras found", isLoading := false }, false)
      | none =>
        ({ s with error := some "No cameras found", isLoading := false }, false)

/-- The outcome of a `startCamera` call: the new hook state, the returned
boolean, and the previous session's stream after it was stopped. -/
structure StartOutcome where
  state : CamState
  result : Bool
  released : Option MediaStream
deriving DecidableEq, Repr

/-- The error message of the `catch` in `startCamera` (lines 193-209). -/
def startErrorMessage : AccessFailure → String
  | .domEx .notAllowed => "Camera access denied"
  | .domEx .notFound => "Selected camera not found"
  | .domEx .notReadable => "Camera is in use by another application"
  | _ => "Failed to start camera"

/-- The device actually used by `startCamera` (lines 137-149):
`currentDevice` if set, else the camera matching `cameraPosition`, else the
first device. -/
def resolveDevice (env : Env) (s : CamState) : Option MediaDeviceInfo :=
  match s.currentDevice with
  | some d => some d
  | none =>
    if s.cameraPosition = CameraPosition.front ∧
        (identifyCameras env.deviceType s.devices).frontCamera.isSome then
      (identifyCameras env.deviceType s.devices).frontCamera
    else if s.cameraPosition = CameraPosition.back ∧
        (identifyCameras env.deviceType s.devices).backCamera.isSome then
      (identifyCameras env.deviceType s.devices).backCamera
    else if s.devices ≠ [] then s.devices[0]?
    else none

/-- The tail of `startCamera` after the previous stream was stopped
(lines 131-210): device resolution, `getUserMedia`, sink attach and play.

React semantics is modeled with two states: `snap` is the render closure
the callback reads its state from (`currentDevice`, `devices`,
`cameraPosition` at lines 131-149 are closure captures, so queued
`setX` writes are not visible to them), while `cur` carries the writes
already queued before this point; the tail's own `setX` writes apply on
top of `cur`.  The `streamRef` ref is a mutable cell of the current
world, so it lives in `cur`. -/
def afterStop (env : Env) (snap cur : CamState) (released : Option MediaStream) :
    StartOutcome :=
  if snap.currentDevice = none ∧ snap.devices = [] then
    { state := { cur with error := some "No camera available", isLoading := false },
      result := false, released := released }
  else
    match resolveDevice env snap with
    | none =>
      { state := { cur with error := some "No camera device selected", isLoading := false },
        result := false, released := released }
    | some dev =>
      match env.gumResult with
      | .error e =>
        { state := { cur with error := some (startErrorMessage e), isLoading := false },
          result := false, released := released }
      | .ok stream =>
        if env.videoElementPresent then
          if env.playSucceeds then
            { state := { cur with streamRef := some stream, isActive := true,
                                  currentDevice := some dev, isLoading := false },
              result := true, released := released }
          else
            { state := { cur with streamRef := some stream,
                                  error := some "Unable to play video feed",
                                  isLoading := false },
              result := true, released := released }
        else
          { state := { cur with streamRef := some stream,
                                error := some "Failed to start camera",
                                isLoading := false },
            result := false, released := released }

/-- `startCamera`'s acquisition phase (lines 125-210): set loading, clear
the error, stop whatever stream the ref holds, then acquire.  Reads go to
the render closure `snap`, writes apply onto `cur`. -/
def startAcquire (env : Env) (snap cur : CamState) : StartOutcome :=
  let cur := { cur with isLoading := true, error := none }
  let (cur2, released) := stopCurrentStream cur
  afterStop env snap cur2 released

/-- `startCamera` (lines 119-211) as invoked with render closure `snap`
while the queued-write state is `cur`: acquire permission first when the
closure lacks it — the continuation after `await initializeCamera()`
still reads the stale closure `snap`, so the device list that
`initializeCamera` stored is not visible to it — then stop the previous
stream and acquire. -/
def startCameraFrom (env : Env) (snap cur : CamState) : StartOutcome :=
  if snap.hasPermission then startAcquire env snap cur
  else
    let (sInit, ok) := initializeCamera env cur
    if ok then startAcquire env snap sInit
    else { state := sInit, result := false, released := none }

/-- A direct `startCamera()` call on a fresh render: the closure and the
queued-write state coincide. -/
def startCamera (env : Env) (s : CamState) : StartOutcome :=
  startCameraFrom env s s

/-- `afterStop` reports the released stream it was given, on every path. -/
theorem afterStop_released (env : Env) (snap cur : CamState)
    (released : Option MediaStream) :
    (afterStop env snap cur released).released = released := by
  unfold afterStop
  repeat' split
  all_goals rfl

/-- On the success path (device resolved from the closure, `getUserMedia`
succeeded, sink present, playback started) `afterStop` stores the new
stream, marks the session active and writes the closure-resolved device
into `currentDevice`. -/
theorem afterStop_success (env : Env) (snap cur : CamState)
    (released : Option MediaStream)
    (dev : MediaDeviceInfo) (st : MediaStream) (hdev : snap.currentDevice = some dev)
    (hgum : env.gumResult = Except.ok st) (hvep : env.videoElementPresent = true)
    (hplay : env.playSucceeds = true) :
    (afterStop env snap cur released).state.streamRef = some st ∧
    (afterStop env snap cur released).state.isActive = true ∧
    (afterStop env snap cur released).state.currentDevice = some dev ∧
    (afterStop env snap cur released).state.cameraPosition = cur.cameraPosition ∧
    (afterStop env snap cur released).result = true := by
  have hres : resolveDevice env snap = some dev := by
    simp [resolveDevice, hdev]
  rw [afterStop, if_neg (by simp [hdev]), hres, hgum]
  simp [hvep, hplay]

/-- `startCamera`, called directly with permission held and a current
device, on the success path: new stream stored, session active, resolved
device kept. -/
theorem startCamera_success (env : Env) (s : CamState) (dev : MediaDeviceInfo)
    (st : MediaStream) (hperm : s.hasPermission = true)
    (hdev : s.currentDevice = some dev) (hgum : env.gumResult = Except.ok st)
    (hvep : env.videoElementPresent = true) (hplay : env.playSucceeds = true) :
    (startCamera env s).state.streamRef = some st ∧
    (startCamera env s).state.isActive = true ∧
    (startCamera env s).state.currentDevice = some dev ∧
    (startCamera env s).state.cameraPosition = s.cameraPosition ∧
    (startCamera env s).result = true := by
  rw [startCamera, startCameraFrom, if_pos hperm, startAcquire]
  cases href : s.streamRef with
  | none =>
    simp only [stopCurrentStream, href]
    exact afterStop_success env s _ _ dev st hdev hgum hvep hplay
  | some ms =>
    simp only [stopCurrentStream, href]
    exact afterStop_success env s _ _ dev st hdev hgum hvep hplay

/-- `startCamera`, called directly with permission held while a stream is
live, always stops and releases exactly that stream's tracks. -/
theorem startCamera_released (env : Env) (s : CamState) (ms : MediaStream)
    (hperm : s.hasPermission = true) (href : s.streamRef = some ms) :
    (startCamera env s).released = some ms.stopAll := by
  rw [startCamera, startCameraFrom, if_pos hperm, startAcquire]
  simp only [stopCurrentStream, href]
  exact afterStop_released env s _ _

/-- The position word interpolated into the failure toast of
`switchCamera` (``No ${newPosition} camera available``). -/
def positionName : CameraPosition → String
  | .front => "front"
  | .back => "back"
  | .other => "other"

/-- The outcome of a `switchCamera` call: new state, returned boolean, and
the destructive toast raised on failure (if any). -/
structure SwitchOutcome where
  state : CamState
  result : Bool
  toastMessage : Option String
deriving DecidableEq, Repr

/-- The tail of `switchCamera` once the opposite device's write is queued
(lines 239-244): restart the session if the closure says it is active.
The `startCamera` it invokes is the callback of the same render, so that
callback reads the same closure `snap` — the `setCurrentDevice` /
`setCameraPosition` writes queued by `switchCamera` (carried in `cur`)
are not visible to it. -/
def switchProceed (env : Env) (snap cur : CamState) : SwitchOutcome :=
  if snap.isActive then
    { state := (startCameraFrom env snap cur).state,
      result := (startCameraFrom env snap cur).result,
      toastMessage := none }
  else
    { state := cur, result := true, toastMessage := none }

/-- `switchCamera` (use-camera.tsx lines 220-245): toggle the position,
classify the devices, queue the opposite camera as `currentDevice` if one
exists and restart an active session (through the same render's stale
closure), otherwise raise a failure toast and return `false` without
touching `currentDevice`. -/
def switchCamera (env : Env) (s : CamState) : SwitchOutcome :=
  let newPosition :=
    if s.cameraPosition = CameraPosition.front then CameraPosition.back
    else CameraPosition.front
  if newPosition = CameraPosition.front ∧
      (identifyCameras env.deviceType s.devices).frontCamera.isSome then
    switchProceed env s
      { s with cameraPosition := newPosition,
               currentDevice := (identifyCameras env.deviceType s.devices).frontCamera }
  else if newPosition = CameraPosition.back ∧
      (identifyCameras env.deviceType s.devices).backCamera.isSome then
    switchProceed env s
      { s with cameraPosition := newPosition,
               currentDevice := (identifyCameras env.deviceType s.devices).backCamera }
  else
    { state := { s with cameraPosition := newPosition }, result := false,
      toastMessage := some ("No " ++ positionName newPosition ++ " camera available") }

/-- Claim C3: starting a new capture session while one is active (permission
held, a device current, a stream live) always stops and releases the
previous stream's tracks — on every path, including acquisition failure —
and on the success path exactly the new stream is held and active. -/
theorem claim3_theorem (env : Env) (s : CamState) (ms : MediaStream)
    (dev : MediaDeviceInfo) (hperm : s.hasPermission = true)
    (href : s.streamRef = some ms) (hdev : s.currentDevice = some dev) :
    (startCamera env s).released = some ms.stopAll ∧
    (∀ t ∈ ms.stopAll.tracks, t.stopped = true) ∧
    (∀ st, env.gumResult = Except.ok st → env.videoElementPresent = true →
      env.playSucceeds = true →
      (startCamera env s).state.streamRef = some st ∧
      (startCamera env s).state.isActive = true) := by
  refine ⟨startCamera_released env s ms hperm href, ?_, ?_⟩
  · intro t ht
    rw [MediaStream.stopAll] at ht
    simp only [List.mem_map] at ht
    obtain ⟨a, _, hat⟩ := ht
    rw [← hat]
  · intro st hgum hvep hplay
    have h := startCamera_success env s dev st hperm hdev hgum hvep hplay
    exact ⟨h.1, h.2.1⟩

/-- A live two-track stream held by the session in the C3 witness. -/
def liveStream : MediaStream := ⟨[⟨false⟩, ⟨false⟩]⟩

/-- The stream produced by `getUserMedia` in the witnesses. -/
def newStream : MediaStream := ⟨[⟨false⟩]⟩

/-- An environment in which acquisition fully succeeds. -/
def goodEnv : Env :=
  { deviceType := DeviceType.desktop,
    supported := true,
    secure := true,
    gumResult := Except.ok newStream,
    enumDevices := [unlabeledDevice],
    videoElementPresent := true,
    playSucceeds := true }

/-- A hook state with an active session holding `liveStream`. -/
def activeCamState : CamState :=
  { devices := [unlabeledDevice],
    currentDevice := some unlabeledDevice,
    isLoading := false,
    isActive := true,
    hasPermission := true,
    error := none,
    cameraPosition := CameraPosition.front,
    hasFrontAndBackCamera := false,
    streamRef := some liveStream }

/-- Claim C3, witness: restarting the concrete active session releases the
old stream (stopped) and ends holding exactly the new stream, active. -/
theorem claim3_witness :
    (startCamera goodEnv activeCamState).released = some liveStream.stopAll ∧
    (startCamera goodEnv activeCamState).state.streamRef = some newStream ∧
    (startCamera goodEnv activeCamState).state.isActive = true :=
  ⟨(claim3_theorem goodEnv activeCamState liveStream unlabeledDevice rfl rfl rfl).1,
   ((claim3_theorem goodEnv activeCamState liveStream unlabeledDevice rfl rfl rfl).2.2
      newStream rfl rfl rfl).1,
   ((claim3_theorem goodEnv activeCamState liveStream unlabeledDevice rfl rfl rfl).2.2
      newStream rfl rfl rfl).2⟩

/-- An active back-camera session with both cameras classified. -/
def backCamState : CamState :=
  { devices := [frontLabeledDevice, backLabeledDevice],
    currentDevice := some backLabeledDevice,
    isLoading := false,
    isActive := true,
    hasPermission := true,
    error := none,
    cameraPosition := CameraPosition.back,
    hasFrontAndBackCamera := true,
    streamRef := some liveStream }

/-- An active back-camera session whose device list has no front camera. -/
def lonelyCamState : CamState :=
  { backCamState with devices := [backLabeledDevice] }

/-- Claim C9 (code bug): on an active back-camera session with a front
camera classified, `switchCamera` toggles the position and returns `true`,
but the restarted session still runs the previously selected back device,
and `currentDevice` ends as that back device: the inner `startCamera` is
the same render's callback, so it resolves `deviceToUse` from the stale
closure (use-camera.tsx line 139) and its play callback writes that old
device back (line 178) — contrary to the claim and to the source's own
comment "If camera is active, restart with new device" (line 239).  The
failure branch does behave as claimed: with no front camera the call
returns `false`, raises the toast, and leaves `currentDevice` untouched. -/
theorem claim9_theorem :
    ((switchCamera goodEnv backCamState).result = true ∧
     (switchCamera goodEnv backCamState).state.cameraPosition = CameraPosition.front ∧
     (switchCamera goodEnv backCamState).state.isActive = true ∧
     (switchCamera goodEnv backCamState).state.currentDevice = some backLabeledDevice ∧
     (switchCamera goodEnv backCamState).state.currentDevice ≠ some frontLabeledDevice) ∧
    ((switchCamera goodEnv lonelyCamState).result = false ∧
     (switchCamera goodEnv lonelyCamState).toastMessage =
       some "No front camera available" ∧
     (switchCamera goodEnv lonelyCamState).state.currentDevice =
       some backLabeledDevice) := by
  decide

end RoboMed
